import Mathlib

/-!
Verification development for the silent-telegram-bot lead-qualification
subsystem (`user_bot.py`).  Texts are modelled as `List Char`; Python
dictionaries keyed by user id are modelled as functions `Nat → Option _`
(resp. `Nat → Bool` for sets); timestamps are modelled as integer seconds.
Each definition is a shallow embedding of the correspondingly named Python
method of `SilentUserBot`.
-/

namespace SilentBot

/-- Python `str.lower` restricted to the character ranges relevant to this
bot: ASCII letters, the Cyrillic range А..Я (U+0410..U+042F mapped to
U+0430..U+044F) and Ё (U+0401 → U+0451).  Other characters are unchanged. -/
def pyToLower (c : Char) : Char :=
  if 65 ≤ c.toNat ∧ c.toNat ≤ 90 then Char.ofNat (c.toNat + 32)
  else if 1040 ≤ c.toNat ∧ c.toNat ≤ 1071 then Char.ofNat (c.toNat + 32)
  else if c.toNat = 1025 then Char.ofNat 1105
  else c

/-- Python `str.lower` on a whole text. -/
def pyLower (t : List Char) : List Char := t.map pyToLower

/-- Whitespace characters removed by Python `str.strip` (ASCII subset). -/
def isPySpace (c : Char) : Bool :=
  c = ' ' ∨ c.toNat = 9 ∨ c.toNat = 10 ∨ c.toNat = 11 ∨ c.toNat = 12 ∨ c.toNat = 13

/-- Python `str.strip`: drop whitespace from both ends. -/
def pyStrip (t : List Char) : List Char :=
  List.rdropWhile isPySpace (List.dropWhile isPySpace t)

/-- The mandatory activation keyword "хочу". -/
def kwWant : List Char := "хочу".data

/-- Accusative form "консультацию". -/
def kwConsAcc : List Char := "консультацию".data

/-- Nominative form "консультация". -/
def kwConsNom : List Char := "консультация".data

/-- Python substring test `tok in hay` (contiguous substring). -/
def containsSub (hay tok : List Char) : Bool := decide (tok <:+: hay)

/-- `SilentUserBot.check_activation_keywords` (user_bot.py:1646):
lowercases and strips the text, then requires the substring "хочу" AND one
of the substrings "консультацию" / "консультация". -/
def check_activation_keywords (text : List Char) : Bool :=
  let text_lower := pyStrip (pyLower text)
  let has_want := containsSub text_lower kwWant
  let has_consultation :=
    containsSub text_lower kwConsAcc || containsSub text_lower kwConsNom
  has_want && has_consultation

/-! Helper lemmas: containment of a nonempty whitespace-free token is not
affected by stripping the ends of the text. -/

lemma infix_of_append_left_forall {tok a b : List Char}
    (hne : tok ≠ []) (hns : ∀ c ∈ tok, isPySpace c = false)
    (ha : ∀ c ∈ a, isPySpace c = true) (h : tok <:+: a ++ b) :
    tok <:+: b := by
  induction a with
  | nil => simpa using h
  | cons x xs ih =>
      rw [List.cons_append, List.infix_cons_iff] at h
      rcases h with h | h
      · rcases tok with _ | ⟨t0, ts⟩
        · exact absurd rfl hne
        · rcases List.cons_prefix_cons.mp h with ⟨rfl, -⟩
          have h1 := hns t0 (List.mem_cons_self _ _)
          have h2 := ha t0 (List.mem_cons_self _ _)
          rw [h1] at h2
          exact absurd h2 (by simp)
      · exact ih (fun c hc => ha c (List.mem_cons_of_mem _ hc)) h

lemma token_infix_dropWhile {tok l : List Char}
    (hne : tok ≠ []) (hns : ∀ c ∈ tok, isPySpace c = false)
    (h : tok <:+: l) : tok <:+: l.dropWhile isPySpace := by
  have hsplit : l = l.takeWhile isPySpace ++ l.dropWhile isPySpace :=
    (List.takeWhile_append_dropWhile (p := isPySpace) (l := l)).symm
  rw [hsplit] at h
  exact infix_of_append_left_forall hne hns
    (fun c hc => List.mem_takeWhile_imp hc) h

lemma token_infix_rdropWhile {tok l : List Char}
    (hne : tok ≠ []) (hns : ∀ c ∈ tok, isPySpace c = false)
    (h : tok <:+: l) : tok <:+: List.rdropWhile isPySpace l := by
  have h1 : tok.reverse <:+: l.reverse := List.reverse_infix.mpr h
  have h2 : tok.reverse <:+: List.dropWhile isPySpace l.reverse :=
    token_infix_dropWhile (by simpa using hne)
      (fun c hc => hns c (List.mem_reverse.mp hc)) h1
  have h3 : tok.reverse.reverse <:+: (List.dropWhile isPySpace l.reverse).reverse :=
    List.reverse_infix.mpr h2
  simpa [List.rdropWhile] using h3

lemma infix_pyStrip_iff {tok l : List Char}
    (hne : tok ≠ []) (hns : ∀ c ∈ tok, isPySpace c = false) :
    tok <:+: pyStrip l ↔ tok <:+: l := by
  constructor
  · intro h
    have h1 : pyStrip l <:+: l := by
      have hp : pyStrip l <+: l.dropWhile isPySpace :=
        List.rdropWhile_prefix _ _
      have hs : l.dropWhile isPySpace <:+ l := List.dropWhile_suffix _
      exact hp.isInfix.trans hs.isInfix
    exact h.trans h1
  · intro h
    exact token_infix_rdropWhile hne hns
      (token_infix_dropWhile hne hns h)

/-! ## Per-user state model

Python dictionaries keyed by user id become functions `Nat → Option _`,
Python sets become `Nat → Bool`.  `save_users_data` serialises a snapshot
of the per-user maps to disk; the model keeps the most recently written
snapshot in the `persisted` field. -/

/-- One entry of `self.user_states`: the conversation progress dict. -/
structure ConvState where
  current_question : Nat
  waiting_for_contact : Bool
  username : Option (List Char)
  first_name : Option (List Char)
  last_name : Option (List Char)
  deriving DecidableEq

/-- One entry of `self.user_answers`: question ordinal ↦ answer text. -/
def Answers := List (Nat × List Char)

instance : DecidableEq Answers := by unfold Answers; infer_instance

/-- One entry of `self.scheduled_reminders` (the declarative record that is
persisted so a reminder can be restored after a restart).  The source tags
tiers with the strings `'first'` / `'final'`; `reminder_type` keeps the
string as a character list. -/
structure SchedRec where
  chat_id : Nat
  delay_minutes : Nat
  reminder_type : List Char
  scheduled_time : Int
  created_time : Int
  deriving DecidableEq

/-- Reminder-tier tag `'first'`. -/
def tierFirst : List Char := "first".data

/-- Reminder-tier tag `'final'`. -/
def tierFinal : List Char := "final".data

/-- Keys of `self.reminder_tasks`: the plain user id for contact reminders
and the string `f"survey_{user_id}"` for the survey reminder. -/
inductive TaskKey where
  | contact (u : Nat)
  | survey (u : Nat)
  deriving DecidableEq

/-- The lead record (`user_data`) built by `process_contact_info`. -/
structure Lead where
  user_id : Nat
  username : Option (List Char)
  first_name : Option (List Char)
  last_name : Option (List Char)
  phone_number : List Char
  consultation_time : List Char
  answers : Answers
  deriving DecidableEq

/-- One entry of `self.applications_data` (`add_application_record`). -/
structure AppRecord where
  user_id : Nat
  phone_number : List Char
  application_date : Int
  deriving DecidableEq

/-- What `save_users_data` (user_bot.py:1496) actually writes: note that
message counts are stored only as an over-quota flag (`count > 5`). -/
@[ext]
structure Snapshot where
  expired_flags : Nat → Bool
  activated_users : Nat → Bool
  expired_users : Nat → Bool
  deactivated_users : Nat → Bool
  survey_reminder_sent : Nat → Option Bool
  last_message_times : Nat → Option Int
  user_states : Nat → Option ConvState
  user_answers : Nat → Option Answers
  scheduled_reminders : Nat → Option SchedRec

/-- The mutable state of `SilentUserBot` relevant to the claims. -/
@[ext]
structure BotState where
  user_states : Nat → Option ConvState
  user_answers : Nat → Option Answers
  reminder_tasks : TaskKey → Bool
  last_message_times : Nat → Option Int
  survey_reminder_sent : Nat → Option Bool
  scheduled_reminders : Nat → Option SchedRec
  user_message_counts : Nat → Option Nat
  activated_users : Nat → Bool
  expired_users : Nat → Bool
  deactivated_users : Nat → Bool
  admin_mode : Bool
  active_admin_user : Option Nat
  applications_log : List (Lead × Int)
  applications_data : List AppRecord
  /-- the snapshot most recently written by `save_users_data` -/
  persisted : Snapshot
  /-- how many times `save_users_data` has been invoked -/
  saves : Nat

/-- Pointwise update of a user-keyed map. -/
def updF {β : Type} (m : Nat → β) (u : Nat) (v : β) : Nat → β :=
  fun x => if x = u then v else m x

/-- Pointwise update of a task-keyed map. -/
def updT (m : TaskKey → Bool) (k : TaskKey) (v : Bool) : TaskKey → Bool :=
  fun x => if x = k then v else m x

/-- The snapshot `save_users_data` derives from the current state. -/
def mkSnapshot (s : BotState) : Snapshot where
  expired_flags := fun u =>
    match s.user_message_counts u with
    | some c => decide (5 < c)
    | none => false
  activated_users := s.activated_users
  expired_users := s.expired_users
  deactivated_users := s.deactivated_users
  survey_reminder_sent := s.survey_reminder_sent
  last_message_times := s.last_message_times
  user_states := s.user_states
  user_answers := s.user_answers
  scheduled_reminders := s.scheduled_reminders

/-- `SilentUserBot.save_users_data` (user_bot.py:1496): flush the snapshot
of the per-user maps. -/
def save_users_data (s : BotState) : BotState :=
  { s with persisted := mkSnapshot s, saves := s.saves + 1 }

/-- `SilentUserBot.process_user_message_for_activation`
(user_bot.py:1680): the activation gate evaluation. -/
def process_user_message_for_activation (s : BotState) (u : Nat)
    (text : List Char) : BotState × Bool :=
  if s.deactivated_users u then (s, false)
  else
    -- initialise the counter at 0 if absent, then increment it
    let c := (s.user_message_counts u).getD 0 + 1
    let s1 := { s with user_message_counts := updF s.user_message_counts u (some c) }
    -- keyword check only within the first 5 messages; on match, activate,
    -- save and return True
    if c ≤ 5 ∧ check_activation_keywords text then
      (save_users_data { s1 with activated_users := updF s1.activated_users u true }, true)
    else
      -- exactly 5 messages without activation: mark expired and save
      let s3 :=
        if c = 5 ∧ ¬ s1.activated_users u then
          save_users_data { s1 with expired_users := updF s1.expired_users u true }
        else s1
      -- beyond 5 without activation: ensure expired membership
      let s4 :=
        if 5 < c ∧ ¬ s3.activated_users u ∧ ¬ s3.expired_users u then
          save_users_data { s3 with expired_users := updF s3.expired_users u true }
        else s3
      (s4, s4.activated_users u)

/-- Folding the gate over a list of inbound messages (state only). -/
def processList (s : BotState) (u : Nat) (msgs : List (List Char)) : BotState :=
  msgs.foldl (fun st m => (process_user_message_for_activation st u m).1) s

/-- Folding the gate over a list of inbound messages (returned booleans). -/
def processResults (s : BotState) (u : Nat) : List (List Char) → List Bool
  | [] => []
  | m :: rest =>
      let r := process_user_message_for_activation s u m
      r.2 :: processResults r.1 u rest

/-- C1: the activation predicate returns true iff the lowercased text
contains "хочу" and at least one of "консультацию" / "консультация";
if either mandatory part is missing it returns false. -/
theorem check_activation_keywords_iff (text : List Char) :
    check_activation_keywords text = true ↔
      (kwWant <:+: pyLower text ∧
        (kwConsAcc <:+: pyLower text ∨ kwConsNom <:+: pyLower text)) := by
  unfold check_activation_keywords containsSub
  simp only [Bool.and_eq_true, Bool.or_eq_true, decide_eq_true_eq]
  rw [infix_pyStrip_iff (by decide) (by decide),
    infix_pyStrip_iff (by decide) (by decide),
    infix_pyStrip_iff (by decide) (by decide)]

/-- The snapshot written for a fresh installation. -/
def emptySnapshot : Snapshot where
  expired_flags := fun _ => false
  activated_users := fun _ => false
  expired_users := fun _ => false
  deactivated_users := fun _ => false
  survey_reminder_sent := fun _ => none
  last_message_times := fun _ => none
  user_states := fun _ => none
  user_answers := fun _ => none
  scheduled_reminders := fun _ => none

/-- The state of a freshly started bot with no persisted data. -/
def initState : BotState where
  user_states := fun _ => none
  user_answers := fun _ => none
  reminder_tasks := fun _ => false
  last_message_times := fun _ => none
  survey_reminder_sent := fun _ => none
  scheduled_reminders := fun _ => none
  user_message_counts := fun _ => none
  activated_users := fun _ => false
  expired_users := fun _ => false
  deactivated_users := fun _ => false
  admin_mode := false
  active_admin_user := none
  applications_log := []
  applications_data := []
  persisted := emptySnapshot
  saves := 0

/-! ## Step lemmas for the activation gate -/

lemma pumfa_deactivated_eq (s : BotState) (u : Nat) (m : List Char) :
    (process_user_message_for_activation s u m).1.deactivated_users =
      s.deactivated_users := by
  unfold process_user_message_for_activation save_users_data
  dsimp only
  split_ifs <;> rfl

lemma pumfa_nonmatching (s : BotState) (u : Nat) (m : List Char)
    (hd : s.deactivated_users u = false)
    (hm : check_activation_keywords m = false) :
    (process_user_message_for_activation s u m).1.user_message_counts u =
        some ((s.user_message_counts u).getD 0 + 1) ∧
      (process_user_message_for_activation s u m).1.activated_users =
        s.activated_users := by
  unfold process_user_message_for_activation save_users_data
  simp only [hd, hm, Bool.false_eq_true, if_false, and_false, if_neg,
    not_false_eq_true]
  split_ifs <;> simp [updF]

lemma pumfa_expire (s : BotState) (u : Nat) (m : List Char)
    (hd : s.deactivated_users u = false)
    (hm : check_activation_keywords m = false)
    (ha : s.activated_users u = false)
    (hc : 4 ≤ (s.user_message_counts u).getD 0) :
    (process_user_message_for_activation s u m).1.expired_users u = true := by
  unfold process_user_message_for_activation save_users_data
  dsimp only
  simp only [hd, hm, Bool.false_eq_true, and_false, if_false]
  split_ifs with h1 h2 h3
  · simp [updF]
  · simp [updF]
  · simp [updF]
  · have h1' : ¬((s.user_message_counts u).getD 0 + 1 = 5 ∧
        ¬ s.activated_users u = true) := h1
    have h3' : ¬(5 < (s.user_message_counts u).getD 0 + 1 ∧
        ¬ s.activated_users u = true ∧ ¬ s.expired_users u = true) := h3
    simp only [ha, Bool.false_eq_true, not_false_eq_true, and_true] at h1' h3'
    show s.expired_users u = true
    cases hexp : s.expired_users u with
    | true => rfl
    | false =>
        exfalso
        rw [hexp] at h3'
        simp only [Bool.false_eq_true, not_false_eq_true, and_true] at h3'
        omega

lemma pumfa_big_count (s : BotState) (u : Nat) (m : List Char)
    (ha : s.activated_users u = false)
    (hc : 5 ≤ (s.user_message_counts u).getD 0) :
    (process_user_message_for_activation s u m).2 = false ∧
      (process_user_message_for_activation s u m).1.activated_users u = false ∧
      5 ≤ ((process_user_message_for_activation s u m).1.user_message_counts u).getD 0 := by
  unfold process_user_message_for_activation save_users_data
  dsimp only
  split_ifs with h1 h2
  · exact ⟨rfl, ha, hc⟩
  · exact absurd h2.1 (by omega)
  all_goals
    exact ⟨by simp [updF, ha], by simp [updF, ha], by simp [updF]; omega⟩

lemma processResults_false (u : Nat) (more : List (List Char)) :
    ∀ s : BotState, s.activated_users u = false →
      5 ≤ (s.user_message_counts u).getD 0 →
      ∀ b ∈ processResults s u more, b = false := by
  induction more with
  | nil => intro s _ _ b hb; simp [processResults] at hb
  | cons m rest ih =>
      intro s ha hc b hb
      obtain ⟨h1, h2, h3⟩ := pumfa_big_count s u m ha hc
      simp only [processResults, List.mem_cons] at hb
      rcases hb with hb | hb
      · rw [hb]; exact h1
      · exact ih _ h2 h3 b hb

lemma processList_invariant (u : Nat) (msgs : List (List Char)) :
    ∀ s : BotState, s.deactivated_users u = false →
      s.activated_users u = false →
      (∀ m ∈ msgs, check_activation_keywords m = false) →
      (processList s u msgs).deactivated_users u = false ∧
        (processList s u msgs).activated_users u = false ∧
        ((processList s u msgs).user_message_counts u).getD 0 =
          (s.user_message_counts u).getD 0 + msgs.length := by
  induction msgs with
  | nil => intro s hd ha _; exact ⟨hd, ha, rfl⟩
  | cons m rest ih =>
      intro s hd ha hnm
      obtain ⟨hcnt, hact⟩ :=
        pumfa_nonmatching s u m hd (hnm m (List.mem_cons_self _ _))
      have hdeq := pumfa_deactivated_eq s u m
      have hstep := ih (process_user_message_for_activation s u m).1
        (by rw [hdeq]; exact hd) (by rw [hact]; exact ha)
        (fun x hx => hnm x (List.mem_cons_of_mem _ hx))
      simp only [processList, List.foldl_cons] at *
      refine ⟨hstep.1, hstep.2.1, ?_⟩
      rw [hstep.2.2, hcnt]
      simp [List.length_cons]
      omega

/-- C2: a user who is neither deactivated nor activated, after exactly 5
qualifying messages none of which matches the activation predicate, is in
the expired set, and the activation evaluation returns false for every
subsequent message — even one containing both activation tokens. -/
theorem activation_quota_expiry (s : BotState) (u : Nat)
    (msgs : List (List Char))
    (hd : s.deactivated_users u = false)
    (ha : s.activated_users u = false)
    (hlen : msgs.length = 5)
    (hnm : ∀ m ∈ msgs, check_activation_keywords m = false) :
    (processList s u msgs).expired_users u = true ∧
      ∀ more : List (List Char),
        ∀ b ∈ processResults (processList s u msgs) u more, b = false := by
  obtain ⟨m1, m2, m3, m4, m5, rfl⟩ :
      ∃ a b c d e, msgs = [a, b, c, d, e] := by
    rcases msgs with _ | ⟨a, _ | ⟨b, _ | ⟨c, _ | ⟨d, _ | ⟨e, _ | ⟨f, t⟩⟩⟩⟩⟩⟩ <;>
      simp_all
  have hfour := processList_invariant u [m1, m2, m3, m4] s hd ha
    (fun x hx => hnm x (by simp at hx; rcases hx with h | h | h | h <;> simp [h]))
  obtain ⟨hd4, ha4, hc4⟩ := hfour
  simp only [List.length_cons, List.length_nil] at hc4
  have hlist : processList s u [m1, m2, m3, m4, m5] =
      (process_user_message_for_activation (processList s u [m1, m2, m3, m4]) u m5).1 := by
    simp [processList, List.foldl_cons]
  have hm5 : check_activation_keywords m5 = false := hnm m5 (by simp)
  have hexp : (processList s u [m1, m2, m3, m4, m5]).expired_users u = true := by
    rw [hlist]
    exact pumfa_expire _ u m5 hd4 hm5 ha4 (by omega)
  refine ⟨hexp, ?_⟩
  intro more b hb
  have hstep5 := pumfa_nonmatching (processList s u [m1, m2, m3, m4]) u m5 hd4 hm5
  have hafter_act : (processList s u [m1, m2, m3, m4, m5]).activated_users u = false := by
    rw [hlist, hstep5.2]; exact ha4
  have hafter_cnt : 5 ≤ ((processList s u [m1, m2, m3, m4, m5]).user_message_counts u).getD 0 := by
    rw [hlist, hstep5.1]
    simp only [Option.getD_some]
    omega
  exact processResults_false u more _ hafter_act hafter_cnt b hb

/-! ## Persistence points of the activation gate (C7) -/

lemma pumfa_noop_deactivated (s : BotState) (u : Nat) (m : List Char)
    (hd : s.deactivated_users u = true) :
    process_user_message_for_activation s u m = (s, false) := by
  unfold process_user_message_for_activation
  simp [hd]

lemma pumfa_activation_persists (s : BotState) (u : Nat) (m : List Char)
    (ha : s.activated_users u = false) :
    (process_user_message_for_activation s u m).1.activated_users u = true →
      (process_user_message_for_activation s u m).1.persisted =
        mkSnapshot (process_user_message_for_activation s u m).1 := by
  unfold process_user_message_for_activation save_users_data
  dsimp only
  split_ifs <;> intro ht <;>
    first
      | rfl
      | (have ht' : s.activated_users u = true := ht
         rw [ha] at ht'
         simp at ht')

lemma pumfa_expiry_persists (s : BotState) (u : Nat) (m : List Char)
    (he : s.expired_users u = false) :
    (process_user_message_for_activation s u m).1.expired_users u = true →
      (process_user_message_for_activation s u m).1.persisted =
        mkSnapshot (process_user_message_for_activation s u m).1 := by
  unfold process_user_message_for_activation save_users_data
  dsimp only
  split_ifs <;> intro ht <;>
    first
      | rfl
      | (have ht' : s.expired_users u = true := ht
         rw [he] at ht'
         simp at ht')

/-- For an already-activated (not deactivated) user the evaluation never
changes the activation sets and always returns true — but it may still
save (see `pumfa_save_spec`): a keyword re-match within the first five
counted messages re-adds the user and flushes the snapshot with no
transition. -/
lemma pumfa_activated_user_frame (s : BotState) (u : Nat) (m : List Char)
    (hd : s.deactivated_users u = false)
    (ha : s.activated_users u = true) :
    (process_user_message_for_activation s u m).1.activated_users =
        s.activated_users ∧
      (process_user_message_for_activation s u m).1.expired_users =
        s.expired_users ∧
      (process_user_message_for_activation s u m).2 = true := by
  unfold process_user_message_for_activation save_users_data
  dsimp only
  split_ifs with h0 hA hB hC1 hC2
  · exact absurd h0 (by simp [hd])
  · refine ⟨?_, rfl, rfl⟩
    funext x
    by_cases hx : x = u <;> simp [updF, hx, ha]
  · have hB' : (s.user_message_counts u).getD 0 + 1 = 5 ∧
        ¬ (s.activated_users u = true) := hB
    exact absurd ha hB'.2
  · have hB' : (s.user_message_counts u).getD 0 + 1 = 5 ∧
        ¬ (s.activated_users u = true) := hB
    exact absurd ha hB'.2
  · have hC2' : 5 < (s.user_message_counts u).getD 0 + 1 ∧
        ¬ (s.activated_users u = true) ∧ ¬ (s.expired_users u = true) := hC2
    exact absurd ha hC2'.2.1
  · exact ⟨rfl, rfl, ha⟩

/-- Exact characterisation of the persistence points of a non-deactivated
evaluation: the count is always incremented, at most one flush happens,
and a flush happens precisely when (i) the incremented count is within
the five-message window and the keywords match (regardless of membership
— an already-activated user re-matching saves with no transition), (ii)
the incremented count is exactly 5 with no match for a not-yet-activated
user (even one already marked expired), or (iii) the incremented count
exceeds 5 for a user neither activated nor expired. -/
lemma pumfa_save_spec (s : BotState) (u : Nat) (m : List Char)
    (hd : s.deactivated_users u = false) :
    (process_user_message_for_activation s u m).1.user_message_counts u =
        some ((s.user_message_counts u).getD 0 + 1) ∧
      ((process_user_message_for_activation s u m).1.saves = s.saves + 1 ∨
        (process_user_message_for_activation s u m).1.saves = s.saves) ∧
      ((process_user_message_for_activation s u m).1.saves = s.saves + 1 →
        (process_user_message_for_activation s u m).1.persisted =
          mkSnapshot (process_user_message_for_activation s u m).1) ∧
      ((process_user_message_for_activation s u m).1.saves = s.saves →
        (process_user_message_for_activation s u m).1.persisted = s.persisted) ∧
      ((process_user_message_for_activation s u m).1.saves = s.saves + 1 ↔
        (((s.user_message_counts u).getD 0 + 1 ≤ 5 ∧
            check_activation_keywords m = true) ∨
          ((s.user_message_counts u).getD 0 + 1 = 5 ∧
            check_activation_keywords m = false ∧
            s.activated_users u = false) ∨
          (5 < (s.user_message_counts u).getD 0 + 1 ∧
            s.activated_users u = false ∧ s.expired_users u = false))) := by
  unfold process_user_message_for_activation save_users_data
  dsimp only
  split_ifs with h0 hA hB hC1 hC2
  · exact absurd h0 (by simp [hd])
  · -- keyword branch: save
    exact ⟨by simp [updF], Or.inl rfl, fun _ => rfl,
      fun hcon => absurd (show s.saves + 1 = s.saves from hcon) (by omega),
      ⟨fun _ => Or.inl hA, fun _ => rfl⟩⟩
  · -- ==5 expiry branch followed by an (impossible) >5 branch
    have hx : ¬ (updF s.expired_users u true u = true) := hC1.2.2
    simp [updF] at hx
  · -- ==5 expiry branch: save
    have hB' : (s.user_message_counts u).getD 0 + 1 = 5 ∧
        ¬ (s.activated_users u = true) := hB
    have hc5 : (s.user_message_counts u).getD 0 + 1 ≤ 5 := by omega
    have hch : check_activation_keywords m = false := by
      cases hcheck : check_activation_keywords m with
      | true => exact absurd ⟨hc5, hcheck⟩ hA
      | false => rfl
    have hact : s.activated_users u = false := by
      cases hac : s.activated_users u with
      | true => exact absurd hac hB'.2
      | false => rfl
    exact ⟨by simp [updF], Or.inl rfl, fun _ => rfl,
      fun hcon => absurd (show s.saves + 1 = s.saves from hcon) (by omega),
      ⟨fun _ => Or.inr (Or.inl ⟨hB'.1, hch, hact⟩), fun _ => rfl⟩⟩
  · -- >5 expiry branch: save
    have hC2' : 5 < (s.user_message_counts u).getD 0 + 1 ∧
        ¬ (s.activated_users u = true) ∧ ¬ (s.expired_users u = true) := hC2
    have hact : s.activated_users u = false := by
      cases hac : s.activated_users u with
      | true => exact absurd hac hC2'.2.1
      | false => rfl
    have hexp : s.expired_users u = false := by
      cases hex : s.expired_users u with
      | true => exact absurd hex hC2'.2.2
      | false => rfl
    exact ⟨by simp [updF], Or.inl rfl, fun _ => rfl,
      fun hcon => absurd (show s.saves + 1 = s.saves from hcon) (by omega),
      ⟨fun _ => Or.inr (Or.inr ⟨hC2'.1, hact, hexp⟩), fun _ => rfl⟩⟩
  · -- no save: bare count mutation
    have hA' : ¬ ((s.user_message_counts u).getD 0 + 1 ≤ 5 ∧
        check_activation_keywords m = true) := hA
    have hB' : ¬ ((s.user_message_counts u).getD 0 + 1 = 5 ∧
        ¬ (s.activated_users u = true)) := hB
    have hC2' : ¬ (5 < (s.user_message_counts u).getD 0 + 1 ∧
        ¬ (s.activated_users u = true) ∧ ¬ (s.expired_users u = true)) := hC2
    refine ⟨by simp [updF], Or.inr rfl,
      fun hcon => absurd (show s.saves = s.saves + 1 from hcon) (by omega),
      fun _ => rfl, ?_⟩
    constructor
    · intro hcon
      exact absurd (show s.saves = s.saves + 1 from hcon) (by omega)
    · rintro (h | h | h)
      · exact absurd h hA'
      · exact absurd ⟨h.1, by simp [h.2.2]⟩ hB'
      · exact absurd ⟨h.1, by simp [h.2.1], by simp [h.2.2]⟩ hC2'

/-- C7 counterexample: a fresh user's first non-matching message mutates
the message count but nothing at all is persisted (the claim as stated
requires a snapshot flush after each count mutation). -/
theorem count_mutation_not_persisted :
    (process_user_message_for_activation initState 1 "привет".data).1.user_message_counts 1 =
        some 1 ∧
      (process_user_message_for_activation initState 1 "привет".data).1.saves = 0 ∧
      (process_user_message_for_activation initState 1 "привет".data).1.persisted =
        initState.persisted := by
  refine ⟨by decide, ?_, ?_⟩ <;> rfl

/-- C7 (amended): a deactivated user's message is a complete no-op; the
count is always incremented otherwise; the snapshot is flushed after an
activation transition and after an expiry transition; and across all
non-deactivated evaluations — activated, expired or pending alike — a
flush happens exactly when (i) the incremented count is at most 5 and the
keywords match (which re-saves for an already-activated user with no
transition), (ii) the incremented count is exactly 5 with no match for a
not-yet-activated user, or (iii) the incremented count exceeds 5 for a
user neither activated nor expired; in every other case (in particular a
bare count mutation) nothing is persisted.  An already-activated user's
evaluation never changes the activation sets and returns true. -/
theorem activation_gate_persistence (s : BotState) (u : Nat) (m : List Char) :
    (s.deactivated_users u = true →
      process_user_message_for_activation s u m = (s, false)) ∧
    (s.activated_users u = false →
      (process_user_message_for_activation s u m).1.activated_users u = true →
      (process_user_message_for_activation s u m).1.persisted =
        mkSnapshot (process_user_message_for_activation s u m).1) ∧
    (s.expired_users u = false →
      (process_user_message_for_activation s u m).1.expired_users u = true →
      (process_user_message_for_activation s u m).1.persisted =
        mkSnapshot (process_user_message_for_activation s u m).1) ∧
    (s.deactivated_users u = false → s.activated_users u = true →
      (process_user_message_for_activation s u m).1.activated_users =
          s.activated_users ∧
        (process_user_message_for_activation s u m).1.expired_users =
          s.expired_users ∧
        (process_user_message_for_activation s u m).2 = true) ∧
    (s.deactivated_users u = false →
      (process_user_message_for_activation s u m).1.user_message_counts u =
          some ((s.user_message_counts u).getD 0 + 1) ∧
        ((process_user_message_for_activation s u m).1.saves = s.saves + 1 ∨
          (process_user_message_for_activation s u m).1.saves = s.saves) ∧
        ((process_user_message_for_activation s u m).1.saves = s.saves + 1 →
          (process_user_message_for_activation s u m).1.persisted =
            mkSnapshot (process_user_message_for_activation s u m).1) ∧
        ((process_user_message_for_activation s u m).1.saves = s.saves →
          (process_user_message_for_activation s u m).1.persisted =
            s.persisted) ∧
        ((process_user_message_for_activation s u m).1.saves = s.saves + 1 ↔
          (((s.user_message_counts u).getD 0 + 1 ≤ 5 ∧
              check_activation_keywords m = true) ∨
            ((s.user_message_counts u).getD 0 + 1 = 5 ∧
              check_activation_keywords m = false ∧
              s.activated_users u = false) ∨
            (5 < (s.user_message_counts u).getD 0 + 1 ∧
              s.activated_users u = false ∧ s.expired_users u = false)))) :=
  ⟨pumfa_noop_deactivated s u m,
    pumfa_activation_persists s u m,
    pumfa_expiry_persists s u m,
    fun hd ha => pumfa_activated_user_frame s u m hd ha,
    fun hd => pumfa_save_spec s u m hd⟩

/-- A state in which user 1 is deactivated. -/
def deactState : BotState :=
  { initState with deactivated_users := updF initState.deactivated_users 1 true }

/-- A state in which user 1 is already activated with one counted
message. -/
def actState : BotState :=
  { initState with
      activated_users := updF initState.activated_users 1 true,
      user_message_counts := updF initState.user_message_counts 1 (some 1) }

/-- Witness for C7 (amended) at concrete inputs: a deactivated user's
message is a no-op; a non-matching first message mutates the count and
persists nothing; an already-activated user re-sending the keywords
flushes the snapshot without changing the activation sets; an activating
first message flushes the snapshot. -/
theorem activation_gate_persistence_witness :
    process_user_message_for_activation deactState 1 "привет".data =
        (deactState, false) ∧
      ((process_user_message_for_activation initState 1 "привет".data).1.user_message_counts 1 =
          some ((initState.user_message_counts 1).getD 0 + 1) ∧
        (process_user_message_for_activation initState 1 "привет".data).1.saves =
          initState.saves) ∧
      ((process_user_message_for_activation actState 1 "хочу консультацию".data).1.saves =
          actState.saves + 1 ∧
        (process_user_message_for_activation actState 1 "хочу консультацию".data).1.activated_users =
          actState.activated_users) ∧
      (process_user_message_for_activation initState 1 "хочу консультацию".data).1.persisted =
        mkSnapshot (process_user_message_for_activation initState 1 "хочу консультацию".data).1 := by
  refine ⟨?_, ⟨?_, ?_⟩, ⟨?_, ?_⟩, ?_⟩
  · exact (activation_gate_persistence deactState 1 "привет".data).1 (by decide)
  · exact ((activation_gate_persistence initState 1 "привет".data).2.2.2.2 rfl).1
  · have h := (activation_gate_persistence initState 1 "привет".data).2.2.2.2 rfl
    rcases h.2.1 with hs | hs
    · exact absurd (h.2.2.2.2.mp hs) (by decide)
    · exact hs
  · exact ((activation_gate_persistence actState 1 "хочу консультацию".data).2.2.2.2
      rfl).2.2.2.2.mpr (Or.inl (by decide))
  · exact ((activation_gate_persistence actState 1 "хочу консультацию".data).2.2.2.1
      rfl rfl).1
  · exact (activation_gate_persistence initState 1 "хочу консультацию".data).2.1
      rfl (by decide)

/-- Witness for C2 at a concrete input: a fresh user sending "привет"
five times. -/
theorem activation_quota_expiry_witness :
    (initState.deactivated_users 1 = false ∧
        initState.activated_users 1 = false ∧
        (List.replicate 5 "привет".data).length = 5) ∧
      ((processList initState 1 (List.replicate 5 "привет".data)).expired_users 1 = true ∧
        ∀ more : List (List Char),
          ∀ b ∈ processResults
              (processList initState 1 (List.replicate 5 "привет".data)) 1 more,
            b = false) := by
  refine ⟨⟨rfl, rfl, rfl⟩,
    activation_quota_expiry initState 1 _ rfl rfl rfl ?_⟩
  intro m hm
  rw [(List.eq_of_mem_replicate hm : m = "привет".data)]
  decide

/-! ## Phone validation and extraction (C3)

`validate_phone_number` (user_bot.py:74) first strips every character but
digits and `+`, then matches the cleaned string against five anchored
regexes (`^\+7\d{10}$`, `^8\d{10}$`, `^7\d{10}$`, `^\d{10}$`, `^\d{11}$`),
normalises, and accepts iff the normalised number starts with `+7` and has
length 12.  The Python loop retries the (pattern-independent) normalisation
for each matching regex, so it is equivalent to a single guarded
normalisation. -/

/-- `re.sub(r'[^\d+]', '', phone_text)`: keep digits and every `+`. -/
def pyCleanPhone (t : List Char) : List Char :=
  t.filter (fun c => c.isDigit || c == '+')

/-- `^\+7\d{10}$` as a whole-string shape predicate. -/
def patPlus7 (c : List Char) : Bool :=
  match c with
  | p :: s :: rest => p == '+' && s == '7' && rest.length == 10 && rest.all Char.isDigit
  | _ => false

/-- `^8\d{10}$`. -/
def pat8 (c : List Char) : Bool :=
  match c with
  | x :: rest => x == '8' && rest.length == 10 && rest.all Char.isDigit
  | _ => false

/-- `^7\d{10}$`. -/
def pat7 (c : List Char) : Bool :=
  match c with
  | x :: rest => x == '7' && rest.length == 10 && rest.all Char.isDigit
  | _ => false

/-- `^\d{10}$`. -/
def pat10 (c : List Char) : Bool :=
  c.length == 10 && c.all Char.isDigit

/-- `^\d{11}$`. -/
def pat11 (c : List Char) : Bool :=
  c.length == 11 && c.all Char.isDigit

/-- The normalisation branch chain of `validate_phone_number`
(user_bot.py:100-110).  Note Python `clean_phone[-10:]` is the last 10
characters (the whole string when shorter), i.e. `drop (length - 10)`. -/
def normalize_phone (c : List Char) : List Char :=
  if c.head? == some '8' then '+' :: '7' :: c.tail
  else if c.head? == some '7' && c.length == 11 then '+' :: c
  else if c.length == 10 then '+' :: '7' :: c
  else if c.take 2 == ['+', '7'] then c
  else '+' :: '7' :: c.drop (c.length - 10)

/-- `validate_phone_number` on an already-cleaned string. -/
def validate_clean (c : List Char) : Bool × List Char :=
  if patPlus7 c || pat8 c || pat7 c || pat10 c || pat11 c then
    if (normalize_phone c).take 2 == ['+', '7'] && (normalize_phone c).length == 12 then
      (true, normalize_phone c)
    else (false, [])
  else (false, [])

/-- `SilentUserBot.validate_phone_number` (user_bot.py:74): returns
`(is_valid, normalized_phone)`; the error-message component is omitted. -/
def validate_phone_number (t : List Char) : Bool × List Char :=
  validate_clean (pyCleanPhone t)

/-! Regex machinery for `extract_phone_from_text`.  The three search
patterns are sequences of: an optional alternation (a `?`-group, encoded
as an alternative list ending with the empty string), an optional
single-character class (encoded the same way) and fixed-width digit runs.
Matching is greedy with backtracking exactly as in Python `re`: an
alternation tries its branches in order and falls through to the next
branch when the rest of the pattern fails. -/

/-- One element of a search pattern. -/
inductive RElem where
  | alts (ss : List (List Char))
  | digs (n : Nat)

/-- A fuel bound large enough for the backtracking matcher: each step
either consumes a pattern element or discards one alternative. -/
def elemsFuel (es : List RElem) : Nat :=
  es.foldl
    (fun acc e =>
      acc + (match e with | RElem.alts ss => ss.length + 1 | RElem.digs _ => 1))
    1

/-- Backtracking matcher: returns the consumed prefix (`match.group(0)`)
when the pattern matches at the head of `s`. -/
def matchElemsF : Nat → List RElem → List Char → Option (List Char)
  | 0, _, _ => none
  | _ + 1, [], _ => some []
  | f + 1, RElem.digs n :: es, s =>
      let d := s.take n
      if d.length == n && d.all Char.isDigit then
        (matchElemsF f es (s.drop n)).map (fun r => d ++ r)
      else none
  | _ + 1, RElem.alts [] :: _, _ => none
  | f + 1, RElem.alts (a :: as) :: es, s =>
      if a.isPrefixOf s then
        match matchElemsF f es (s.drop a.length) with
        | some r => some (a ++ r)
        | none => matchElemsF f (RElem.alts as :: es) s
      else matchElemsF f (RElem.alts as :: es) s

/-- Match a pattern at the head of `s`. -/
def matchElems (es : List RElem) (s : List Char) : Option (List Char) :=
  matchElemsF (elemsFuel es) es s

/-- `re.finditer`: leftmost, non-overlapping matches, scanning forward. -/
def findMatchesF : Nat → List RElem → List Char → List (List Char)
  | 0, _, _ => []
  | f + 1, p, s =>
      match matchElems p s with
      | some m =>
          if m.isEmpty then
            match s with
            | [] => []
            | _ :: t => findMatchesF f p t
          else m :: findMatchesF f p (s.drop m.length)
      | none =>
          match s with
          | [] => []
          | _ :: t => findMatchesF f p t

/-- All matches of a pattern in `s`. -/
def findMatches (p : List RElem) (s : List Char) : List (List Char) :=
  findMatchesF (s.length + 1) p s

/-- `(\+7|8|7)?`. -/
def preAlt : RElem := RElem.alts [['+', '7'], ['8'], ['7'], []]

/-- `[\s\-\(]?` (whitespace modelled by its ASCII members). -/
def sepOpen : RElem :=
  RElem.alts [[' '], [Char.ofNat 9], [Char.ofNat 10], [Char.ofNat 11],
    [Char.ofNat 12], [Char.ofNat 13], ['-'], ['('], []]

/-- `[\s\-\)]?`. -/
def sepClose : RElem :=
  RElem.alts [[' '], [Char.ofNat 9], [Char.ofNat 10], [Char.ofNat 11],
    [Char.ofNat 12], [Char.ofNat 13], ['-'], [')'], []]

/-- `[\s\-]?`. -/
def sepMid : RElem :=
  RElem.alts [[' '], [Char.ofNat 9], [Char.ofNat 10], [Char.ofNat 11],
    [Char.ofNat 12], [Char.ofNat 13], ['-'], []]

/-- `(\+7|8|7)?[\s\-\(]?(\d{3})[\s\-\)]?(\d{3})[\s\-]?(\d{2})[\s\-]?(\d{2})`. -/
def phonePattern1 : List RElem :=
  [preAlt, sepOpen, RElem.digs 3, sepClose, RElem.digs 3, sepMid,
    RElem.digs 2, sepMid, RElem.digs 2]

/-- `(\+7|8|7)?[\s\-\(]?(\d{4})[\s\-\)]?(\d{2})[\s\-]?(\d{2})[\s\-]?(\d{2})`. -/
def phonePattern2 : List RElem :=
  [preAlt, sepOpen, RElem.digs 4, sepClose, RElem.digs 2, sepMid,
    RElem.digs 2, sepMid, RElem.digs 2]

/-- `(\d{3})[\s\-]?(\d{3})[\s\-]?(\d{2})[\s\-]?(\d{2})`. -/
def phonePattern3 : List RElem :=
  [RElem.digs 3, sepMid, RElem.digs 3, sepMid, RElem.digs 2, sepMid,
    RElem.digs 2]

/-- The first candidate of one pattern that validates. -/
def firstValidMatch (p : List RElem) (t : List Char) : Option (List Char) :=
  (findMatches p t).findSome? (fun m =>
    let r := validate_phone_number m
    if r.1 then some r.2 else none)

/-- `SilentUserBot.extract_phone_from_text` (user_bot.py:122): scan the
three patterns in order; the first candidate that validates wins. -/
def extract_phone_from_text (t : List Char) : Option (List Char) :=
  match firstValidMatch phonePattern1 t with
  | some p => some p
  | none =>
      match firstValidMatch phonePattern2 t with
      | some p => some p
      | none => firstValidMatch phonePattern3 t

/-! ## Consultation-time extraction (`extract_consultation_time`,
user_bot.py:1260) -/

/-- The fixed keyword list of `extract_consultation_time`. -/
def timeKeywords : List (List Char) :=
  ["утром".data, "днем".data, "вечером".data, "ночью".data,
    "завтра".data, "сегодня".data, "послезавтра".data,
    "понедельник".data, "вторник".data, "среда".data, "четверг".data,
    "пятница".data, "суббота".data, "воскресенье".data]

/-- Python `\w` restricted to the ranges relevant here: ASCII
alphanumerics, underscore and the Cyrillic block U+0400–U+04FF. -/
def isWordChar (c : Char) : Bool :=
  c.isAlphanum || c == '_' || (1024 ≤ c.toNat && c.toNat ≤ 1279)

/-- `\b` after the minutes: next character absent or non-word. -/
def boundaryAfter (rest : List Char) : Bool :=
  match rest.head? with
  | none => true
  | some c => !isWordChar c

/-- Matches `:\d{2}\b`. -/
def matchTimeTail (l : List Char) : Bool :=
  match l with
  | x :: m1 :: m2 :: rest =>
      x == ':' && m1.isDigit && m2.isDigit && boundaryAfter rest
  | _ => false

/-- Matches `\d{1,2}:\d{2}\b` at the head of `l` (greedy: two digits
first, then one). -/
def matchTimeAt (l : List Char) : Bool :=
  match l with
  | a :: b :: rest =>
      (a.isDigit && b.isDigit && matchTimeTail rest) ||
        (a.isDigit && matchTimeTail (b :: rest))
  | _ => false

/-- `re.search(r'\b\d{1,2}:\d{2}\b', ·)` as a boolean: scan every
position, requiring a word boundary before the first digit. -/
def hasTimeMatch : Option Char → List Char → Bool
  | _, [] => false
  | prev, c :: rest =>
      ((match prev with | none => true | some p => !isWordChar p) &&
          matchTimeAt (c :: rest)) ||
        hasTimeMatch (some c) rest

/-- `SilentUserBot.extract_consultation_time` (user_bot.py:1260). -/
def extract_consultation_time (t : List Char) : List Char :=
  let text_lower := pyLower t
  if timeKeywords.any (fun kw => containsSub text_lower kw) then pyStrip t
  else if hasTimeMatch none t then pyStrip t
  else "Не указано".data

/-! ## Properties of the phone normaliser -/

lemma all_drop_of_all {p : Char → Bool} {c : List Char} (h : c.all p = true)
    (k : Nat) : ((c.drop k).all p) = true := by
  simp only [List.all_eq_true] at h ⊢
  exact fun x hx => h x (List.mem_of_mem_drop hx)

lemma patPlus7_shape {c : List Char} (h : patPlus7 c = true) :
    ∃ rest, c = '+' :: '7' :: rest ∧ rest.length = 10 ∧
      rest.all Char.isDigit = true := by
  rcases c with _ | ⟨a, _ | ⟨b, r⟩⟩
  · simp [patPlus7] at h
  · simp [patPlus7] at h
  · simp only [patPlus7, Bool.and_eq_true, beq_iff_eq] at h
    obtain ⟨⟨⟨ha, hb⟩, hr⟩, hd⟩ := h
    exact ⟨r, by rw [ha, hb], hr, hd⟩

lemma pat8_all_digits {c : List Char} (h : pat8 c = true) :
    c.all Char.isDigit = true ∧ c.length = 11 := by
  rcases c with _ | ⟨a, r⟩
  · simp [pat8] at h
  · simp only [pat8, Bool.and_eq_true, beq_iff_eq] at h
    obtain ⟨⟨ha, hr⟩, hd⟩ := h
    subst ha
    exact ⟨by simp [List.all_cons, hd], by simp [hr]⟩

lemma pat7_all_digits {c : List Char} (h : pat7 c = true) :
    c.all Char.isDigit = true ∧ c.length = 11 := by
  rcases c with _ | ⟨a, r⟩
  · simp [pat7] at h
  · simp only [pat7, Bool.and_eq_true, beq_iff_eq] at h
    obtain ⟨⟨ha, hr⟩, hd⟩ := h
    subst ha
    exact ⟨by simp [List.all_cons, hd], by simp [hr]⟩

lemma pat10_parts {c : List Char} (h : pat10 c = true) :
    c.length = 10 ∧ c.all Char.isDigit = true := by
  simpa only [pat10, Bool.and_eq_true, beq_iff_eq] using h

lemma pat11_parts {c : List Char} (h : pat11 c = true) :
    c.length = 11 ∧ c.all Char.isDigit = true := by
  simpa only [pat11, Bool.and_eq_true, beq_iff_eq] using h

lemma guard_cases {c : List Char}
    (hg : (patPlus7 c || pat8 c || pat7 c || pat10 c || pat11 c) = true) :
    patPlus7 c = true ∨ c.all Char.isDigit = true := by
  simp only [Bool.or_eq_true] at hg
  rcases hg with ((((h | h) | h) | h) | h)
  · exact Or.inl h
  · exact Or.inr (pat8_all_digits h).1
  · exact Or.inr (pat7_all_digits h).1
  · exact Or.inr (pat10_parts h).2
  · exact Or.inr (pat11_parts h).2

lemma guard_length {c : List Char}
    (hg : (patPlus7 c || pat8 c || pat7 c || pat10 c || pat11 c) = true) :
    c.length = 10 ∨ c.length = 11 ∨ c.length = 12 := by
  simp only [Bool.or_eq_true] at hg
  rcases hg with ((((h | h) | h) | h) | h)
  · obtain ⟨rest, rfl, hr, -⟩ := patPlus7_shape h
    simp [hr]
  · exact Or.inr (Or.inl (pat8_all_digits h).2)
  · exact Or.inr (Or.inl (pat7_all_digits h).2)
  · exact Or.inl (pat10_parts h).1
  · exact Or.inr (Or.inl (pat11_parts h).1)

/-- Any input whose cleaned form has a length other than 10, 11 or 12
fails validation. -/
lemma validate_clean_wrong_length {c : List Char}
    (h10 : c.length ≠ 10) (h11 : c.length ≠ 11) (h12 : c.length ≠ 12) :
    validate_clean c = (false, []) := by
  unfold validate_clean
  cases hg : (patPlus7 c || pat8 c || pat7 c || pat10 c || pat11 c) with
  | false => simp
  | true =>
      rcases guard_length hg with h | h | h <;> simp_all

/-- Every 11-digit cleaned form is accepted, normalised to `+7` plus its
last 10 digits — regardless of its leading digit. -/
lemma validate_clean_eleven {c : List Char} (h1 : c.length = 11)
    (h2 : c.all Char.isDigit = true) :
    validate_clean c = (true, '+' :: '7' :: c.drop 1) := by
  rcases c with _ | ⟨x, rest⟩
  · simp at h1
  · have hr : rest.length = 10 := by simpa using h1
    have hx : x.isDigit = true := by
      simp only [List.all_cons, Bool.and_eq_true] at h2; exact h2.1
    have hrest : rest.all Char.isDigit = true := by
      simp only [List.all_cons, Bool.and_eq_true] at h2; exact h2.2
    have hxp : x ≠ '+' := by
      intro hcon; rw [hcon] at hx; exact absurd hx (by decide)
    have hguard : (patPlus7 (x :: rest) || pat8 (x :: rest) ||
        pat7 (x :: rest) || pat10 (x :: rest) || pat11 (x :: rest)) = true := by
      have : pat11 (x :: rest) = true := by
        simp [pat11, hr, hx, hrest]
      simp [this]
    unfold validate_clean
    rw [hguard]
    simp only [if_true]
    by_cases h8 : x = '8'
    · subst h8
      simp [normalize_phone, hr]
    · by_cases h7 : x = '7'
      · subst h7
        simp [normalize_phone, hr]
      · have hlen : (x :: rest).length = 11 := by simp [hr]
        simp [normalize_phone, hr, h8, h7, hxp, hlen]

/-- An accepted result is exactly `+7` followed by 10 digits. -/
lemma validate_clean_shape {c p : List Char}
    (h : validate_clean c = (true, p)) :
    p.take 2 = ['+', '7'] ∧ p.length = 12 ∧
      (p.drop 2).all Char.isDigit = true := by
  unfold validate_clean at h
  split_ifs at h with hg hfin
  · simp only [Prod.mk.injEq, true_and] at h
    subst h
    simp only [Bool.and_eq_true, beq_iff_eq] at hfin
    refine ⟨hfin.1, hfin.2, ?_⟩
    rcases guard_cases hg with hp | hd
    · obtain ⟨rest, rfl, hr, hdig⟩ := patPlus7_shape hp
      have hn : normalize_phone ('+' :: '7' :: rest) = '+' :: '7' :: rest := by
        simp [normalize_phone, hr]
      rw [hn]
      simpa using hdig
    · unfold normalize_phone
      split_ifs <;>
        first
          | exact hd
          | exact all_drop_of_all hd _
          | (simp only [List.drop_succ_cons, List.drop_zero]
             first
               | exact hd
               | exact all_drop_of_all hd _
               | (rw [← List.drop_one]; exact all_drop_of_all hd 1))
  all_goals simp_all

/-- C3 counterexample: `'99001234567'` digit-strips to an 11-digit string
whose prefix matches none of the specified patterns (`+7…`, `8…`, `7…`,
10 digits), yet validation accepts it — normalising it to `+79001234567` —
and free-text extraction also succeeds on it. -/
theorem wrong_prefix_accepted :
    pyCleanPhone "99001234567".data = "99001234567".data ∧
      ("99001234567".data.length = 11 ∧
        "99001234567".data.take 2 ≠ ['+', '7'] ∧
        "99001234567".data.head? ≠ some '8' ∧
        "99001234567".data.head? ≠ some '7' ∧
        "99001234567".data.length ≠ 10) ∧
      validate_phone_number "99001234567".data = (true, "+79001234567".data) ∧
      extract_phone_from_text "99001234567".data = some "+79900123456".data := by
  refine ⟨by decide, ⟨by decide, by decide, by decide, by decide, by decide⟩,
    by decide, by decide⟩

/-- C3 (amended): the four reference inputs normalise to `+79001234567`;
a cleaned form of length other than 10/11/12 always fails; an 11-digit
cleaned form is accepted with any prefix (normalised to `+7` + its last 10
digits); and an accepted result is always exactly `+7` followed by 10
digits. -/
theorem phone_normalizer_spec :
    validate_phone_number "+79001234567".data = (true, "+79001234567".data) ∧
      validate_phone_number "89001234567".data = (true, "+79001234567".data) ∧
      validate_phone_number "79001234567".data = (true, "+79001234567".data) ∧
      validate_phone_number "9001234567".data = (true, "+79001234567".data) ∧
      (∀ t : List Char, (pyCleanPhone t).length ≠ 10 →
        (pyCleanPhone t).length ≠ 11 → (pyCleanPhone t).length ≠ 12 →
        validate_phone_number t = (false, [])) ∧
      (∀ t : List Char, (pyCleanPhone t).length = 11 →
        (pyCleanPhone t).all Char.isDigit = true →
        validate_phone_number t = (true, '+' :: '7' :: (pyCleanPhone t).drop 1)) ∧
      (∀ t p, validate_phone_number t = (true, p) →
        p.take 2 = ['+', '7'] ∧ p.length = 12 ∧
          (p.drop 2).all Char.isDigit = true) := by
  refine ⟨by decide, by decide, by decide, by decide, ?_, ?_, ?_⟩
  · exact fun t h10 h11 h12 => validate_clean_wrong_length h10 h11 h12
  · exact fun t h1 h2 => validate_clean_eleven h1 h2
  · exact fun t p h => validate_clean_shape h

/-- Witness for C3 (amended): the general clauses evaluated at concrete
inputs. -/
theorem phone_normalizer_spec_witness :
    validate_phone_number "123".data = (false, []) ∧
      validate_phone_number "99001234567".data =
        (true, '+' :: '7' :: ("99001234567".data.drop 1)) ∧
      ("+79001234567".data.take 2 = ['+', '7'] ∧
        "+79001234567".data.length = 12 ∧
        ("+79001234567".data.drop 2).all Char.isDigit = true) := by
  refine ⟨?_, ?_, ?_⟩
  · exact (phone_normalizer_spec).2.2.2.2.1 "123".data
      (by decide) (by decide) (by decide)
  · exact (phone_normalizer_spec).2.2.2.2.2.1 "99001234567".data
      (by decide) (by decide)
  · exact (phone_normalizer_spec).2.2.2.2.2.2 "+79001234567".data
      "+79001234567".data (by decide)

/-! ## Outbound effects

Messages sent through the chat transport and calls to the CRM collaborator
are recorded as events; state-only operations return no events. -/

/-- Tags for the texts the bot sends. -/
inductive MsgTag where
  | phoneFormatError
  | confirmation (phone ctime : List Char)
  | adminRejected
  | adminDeactivated
  | firstReminder
  | finalReminder
  | greeting
  | question (i : Nat)
  | resumeNotice
  | contactRequest
  | resumeContact
  deriving DecidableEq

/-- Outbound effects on collaborators. -/
inductive BotEvent where
  | respond (m : MsgTag)
  | crmCreateLead (l : Lead)
  | videoAttempt
  deriving DecidableEq

/-! ## Reminder scheduler -/

/-- `SilentUserBot.cancel_reminder` (user_bot.py:1902): cancel the
contact-reminder task, the survey-reminder task, and drop the persisted
`ScheduledReminder` record (saving when one was present). -/
def cancel_reminder (u : Nat) (s : BotState) : BotState :=
  let s1 :=
    if s.reminder_tasks (TaskKey.contact u) then
      { s with reminder_tasks := updT s.reminder_tasks (TaskKey.contact u) false }
    else s
  let s2 :=
    if s1.reminder_tasks (TaskKey.survey u) then
      { s1 with reminder_tasks := updT s1.reminder_tasks (TaskKey.survey u) false }
    else s1
  if (s2.scheduled_reminders u).isSome then
    save_users_data { s2 with scheduled_reminders := updF s2.scheduled_reminders u none }
  else s2

/-- `SilentUserBot.schedule_reminder` (user_bot.py:1302): store the
declarative record, save, create the delayed task.  Cancelling the
previous task replaces the entry under the same key, so key presence is
unchanged by the cancellation step. -/
def schedule_reminder (u chat : Nat) (delay_minutes : Nat) (rtype : List Char)
    (now : Int) (s : BotState) : BotState :=
  let rec0 : SchedRec :=
    { chat_id := chat, delay_minutes := delay_minutes, reminder_type := rtype,
      scheduled_time := now + delay_minutes * 60, created_time := now }
  let s1 := { s with scheduled_reminders := updF s.scheduled_reminders u (some rec0) }
  let s2 := save_users_data s1
  { s2 with reminder_tasks := updT s2.reminder_tasks (TaskKey.contact u) true }

/-- `SilentUserBot.update_last_message_time` (user_bot.py:1890, the
effective later definition): record the time, drop any persisted
reminder record, save. -/
def update_last_message_time (u : Nat) (now : Int) (s : BotState) : BotState :=
  let s1 := { s with last_message_times := updF s.last_message_times u (some now) }
  let s2 :=
    if (s1.scheduled_reminders u).isSome then
      { s1 with scheduled_reminders := updF s1.scheduled_reminders u none }
    else s1
  save_users_data s2

/-- `SilentUserBot.send_reminder` (user_bot.py:1796) at its fire time
(`now` is the instant the sleep elapses, `delay_minutes` the delay it was
armed with).  Re-validates that the user still awaits contact and that no
message arrived inside the window; sends the tier text; drops the
persisted record; tier `'first'` arms tier `'final'` at 1434 minutes;
tier `'final'` tears down the user's conversation state. -/
def send_reminder (u chat : Nat) (delay_minutes : Nat) (rtype : List Char)
    (now : Int) (s : BotState) : BotState × List BotEvent :=
  if ¬ ((s.user_states u).elim false (fun st => st.waiting_for_contact)) then
    (s, [])
  else if (s.last_message_times u).elim false
      (fun t => now - t < (delay_minutes : Int) * 60) then
    (s, [])
  else if rtype == tierFirst then
    let s1 :=
      if (s.scheduled_reminders u).isSome then
        save_users_data { s with scheduled_reminders := updF s.scheduled_reminders u none }
      else s
    (schedule_reminder u chat 1434 tierFinal now s1,
      [BotEvent.respond MsgTag.firstReminder])
  else if rtype == tierFinal then
    let s1 :=
      if (s.scheduled_reminders u).isSome then
        save_users_data { s with scheduled_reminders := updF s.scheduled_reminders u none }
      else s
    let s2 := { s1 with user_states := updF s1.user_states u none,
                        user_answers := updF s1.user_answers u none,
                        reminder_tasks := updT s1.reminder_tasks (TaskKey.contact u) false,
                        last_message_times := updF s1.last_message_times u none }
    let s3 :=
      if (s2.scheduled_reminders u).isSome then
        save_users_data { s2 with scheduled_reminders := updF s2.scheduled_reminders u none }
      else s2
    (s3, [BotEvent.respond MsgTag.finalReminder])
  else (s, [])

/-- `SilentUserBot.restore_scheduled_reminders` (user_bot.py:1922), one
persisted record: skip users no longer awaiting contact, skip past-due
records, compute `remaining_minutes = int((scheduled_time - now)/60)`,
skip when `≤ 0`, otherwise re-arm `(user, remaining_minutes, tier)`. -/
def restoreOne (now : Int) (states : Nat → Option ConvState)
    (e : Nat × SchedRec) : Option (Nat × Nat × List Char) :=
  if ¬ ((states e.1).elim false (fun st => st.waiting_for_contact)) then none
  else if e.2.scheduled_time ≤ now then none
  else
    let remaining_minutes := (e.2.scheduled_time - now).toNat / 60
    if remaining_minutes ≤ 0 then none
    else some (e.1, remaining_minutes, e.2.reminder_type)

/-- `restore_scheduled_reminders` over the loaded records: the armed
delayed actions. -/
def restore_scheduled_reminders (now : Int) (states : Nat → Option ConvState)
    (entries : List (Nat × SchedRec)) : List (Nat × Nat × List Char) :=
  entries.filterMap (restoreOne now states)

/-! ## Conversation state machine -/

/-- Default used only to totalise dictionary lookups that the source
performs on keys it has already checked (or whose absence would raise). -/
def defaultConv : ConvState :=
  { current_question := 0, waiting_for_contact := false,
    username := none, first_name := none, last_name := none }

/-- The fresh per-user conversation dict initialised by
`start_conversation`. -/
def freshConv (username first_name last_name : Option (List Char)) : ConvState :=
  { current_question := 0, waiting_for_contact := false,
    username := username, first_name := first_name, last_name := last_name }

/-- `SilentUserBot.start_conversation` (user_bot.py:1025).  `nq` is the
length of the configured `QUESTIONS` list (config.py is not part of the
repository). -/
def start_conversation (nq : Nat) (u : Nat)
    (username first_name last_name : Option (List Char)) (s : BotState) :
    BotState × List BotEvent :=
  match s.user_states u, s.user_answers u with
  | some st, some ans =>
      if 0 < st.current_question ∨ ans ≠ [] then
        if st.current_question < nq then
          (s, [BotEvent.respond MsgTag.resumeNotice,
            BotEvent.respond (MsgTag.question st.current_question)])
        else
          let st2 := { st with waiting_for_contact := true }
          ({ s with user_states := updF s.user_states u (some st2) },
            [BotEvent.respond MsgTag.resumeContact,
              BotEvent.respond MsgTag.contactRequest])
      else
        ({ s with
            user_states := updF s.user_states u (some (freshConv username first_name last_name)),
            user_answers := updF s.user_answers u (some []) },
          [BotEvent.videoAttempt, BotEvent.respond MsgTag.greeting,
            BotEvent.respond (MsgTag.question 0)])
  | _, _ =>
      ({ s with
          user_states := updF s.user_states u (some (freshConv username first_name last_name)),
          user_answers := updF s.user_answers u (some []) },
        [BotEvent.videoAttempt, BotEvent.respond MsgTag.greeting,
          BotEvent.respond (MsgTag.question 0)])

/-- `SilentUserBot.process_contact_info` (user_bot.py:1150).
`bitrixConfigured` models whether `BITRIX24_WEBHOOK_URL` is set; `crmOk`
is the outcome of the CRM call, which influences only logging. -/
def process_contact_info (bitrixConfigured crmOk : Bool) (now : Int)
    (u : Nat) (text : List Char) (s : BotState) : BotState × List BotEvent :=
  match extract_phone_from_text text with
  | none => (s, [BotEvent.respond MsgTag.phoneFormatError])
  | some phone =>
      let ctime := extract_consultation_time text
      let st := (s.user_states u).getD defaultConv
      let lead : Lead :=
        { user_id := u, username := st.username, first_name := st.first_name,
          last_name := st.last_name, phone_number := phone,
          consultation_time := ctime, answers := (s.user_answers u).getD [] }
      -- save_application: refilter the rolling 7-day log and append
      let kept := s.applications_log.filter
        (fun r => now - 7 * 24 * 60 * 60 ≤ r.2)
      let s1 := { s with applications_log := kept ++ [(lead, now)] }
      -- add_application_record
      let rec1 : AppRecord :=
        { user_id := u, phone_number := phone, application_date := now }
      let s2 := { s1 with applications_data := s1.applications_data ++ [rec1] }
      -- CRM submission: best-effort, outcome `crmOk` is only logged
      let crmEvents :=
        if bitrixConfigured then [BotEvent.crmCreateLead lead] else []
      -- drop conversation progress and save
      let s3 := { s2 with user_states := updF s2.user_states u none,
                          user_answers := updF s2.user_answers u none }
      let s4 := save_users_data s3
      -- confirmation is sent, then reminders are cancelled
      let s5 := cancel_reminder u s4
      let s6 :=
        if (s5.scheduled_reminders u).isSome then
          save_users_data { s5 with
            scheduled_reminders := updF s5.scheduled_reminders u none }
        else s5
      -- deactivate the user and drop activation bookkeeping
      let s7 := { s6 with
          deactivated_users := updF s6.deactivated_users u true,
          activated_users := updF s6.activated_users u false,
          expired_users := updF s6.expired_users u false,
          user_message_counts := updF s6.user_message_counts u none }
      -- final cleanup of per-user maps
      let s8 := { s7 with user_states := updF s7.user_states u none,
                          user_answers := updF s7.user_answers u none,
                          last_message_times := updF s7.last_message_times u none }
      (s8, crmEvents ++ [BotEvent.respond (MsgTag.confirmation phone ctime)])

/-! ## Admin lock -/

/-- Python truthiness of `self.active_admin_user`. -/
def pyTruthyAdmin (o : Option Nat) : Bool :=
  match o with
  | none => false
  | some a => a != 0

/-- `SilentUserBot.clear_user_states` (user_bot.py:204): the cancel loop
cancels every live reminder task, every per-user map is cleared, and the
emptied snapshot is saved (intermediate saves by `cancel_reminder` are
overwritten by the final one). -/
def clear_user_states (s : BotState) : BotState :=
  save_users_data
    { s with
        user_states := fun _ => none
        user_answers := fun _ => none
        reminder_tasks := fun _ => false
        last_message_times := fun _ => none
        survey_reminder_sent := fun _ => none
        scheduled_reminders := fun _ => none
        user_message_counts := fun _ => none
        activated_users := fun _ => false
        expired_users := fun _ => false
        deactivated_users := fun _ => false }

/-- `SilentUserBot.deactivate_admin_mode` (user_bot.py:393): only the
activating admin may release; on release the lock is cleared and all
per-user state is wiped. -/
def deactivate_admin_mode (u : Nat) (s : BotState) : BotState × List BotEvent :=
  if pyTruthyAdmin s.active_admin_user && s.active_admin_user != some u then
    (s, [BotEvent.respond MsgTag.adminRejected])
  else
    let s1 := { s with admin_mode := false, active_admin_user := none }
    let s2 := clear_user_states s1
    (s2, [BotEvent.respond MsgTag.adminDeactivated])

/-! ## Cancellation lemmas (C9) -/

lemma cancel_reminder_clears (s : BotState) (u : Nat) :
    (cancel_reminder u s).reminder_tasks (TaskKey.contact u) = false ∧
      (cancel_reminder u s).reminder_tasks (TaskKey.survey u) = false ∧
      (cancel_reminder u s).scheduled_reminders u = none := by
  unfold cancel_reminder save_users_data
  dsimp only
  split_ifs with h1 h2 h3 <;> simp_all [updT, updF]

lemma cancel_reminder_noop (s : BotState) (u : Nat)
    (h1 : s.reminder_tasks (TaskKey.contact u) = false)
    (h2 : s.reminder_tasks (TaskKey.survey u) = false)
    (h3 : s.scheduled_reminders u = none) :
    cancel_reminder u s = s := by
  unfold cancel_reminder
  simp [h1, h2, h3]

/-! Fields `cancel_reminder` never touches. -/

lemma cancel_reminder_user_states (s : BotState) (u : Nat) :
    (cancel_reminder u s).user_states = s.user_states := by
  unfold cancel_reminder save_users_data; dsimp only; split_ifs <;> rfl

lemma cancel_reminder_user_answers (s : BotState) (u : Nat) :
    (cancel_reminder u s).user_answers = s.user_answers := by
  unfold cancel_reminder save_users_data; dsimp only; split_ifs <;> rfl

lemma cancel_reminder_last_message_times (s : BotState) (u : Nat) :
    (cancel_reminder u s).last_message_times = s.last_message_times := by
  unfold cancel_reminder save_users_data; dsimp only; split_ifs <;> rfl

lemma cancel_reminder_survey_reminder_sent (s : BotState) (u : Nat) :
    (cancel_reminder u s).survey_reminder_sent = s.survey_reminder_sent := by
  unfold cancel_reminder save_users_data; dsimp only; split_ifs <;> rfl

lemma cancel_reminder_user_message_counts (s : BotState) (u : Nat) :
    (cancel_reminder u s).user_message_counts = s.user_message_counts := by
  unfold cancel_reminder save_users_data; dsimp only; split_ifs <;> rfl

lemma cancel_reminder_activated_users (s : BotState) (u : Nat) :
    (cancel_reminder u s).activated_users = s.activated_users := by
  unfold cancel_reminder save_users_data; dsimp only; split_ifs <;> rfl

lemma cancel_reminder_expired_users (s : BotState) (u : Nat) :
    (cancel_reminder u s).expired_users = s.expired_users := by
  unfold cancel_reminder save_users_data; dsimp only; split_ifs <;> rfl

lemma cancel_reminder_deactivated_users (s : BotState) (u : Nat) :
    (cancel_reminder u s).deactivated_users = s.deactivated_users := by
  unfold cancel_reminder save_users_data; dsimp only; split_ifs <;> rfl

lemma cancel_reminder_applications_log (s : BotState) (u : Nat) :
    (cancel_reminder u s).applications_log = s.applications_log := by
  unfold cancel_reminder save_users_data; dsimp only; split_ifs <;> rfl

lemma cancel_reminder_applications_data (s : BotState) (u : Nat) :
    (cancel_reminder u s).applications_data = s.applications_data := by
  unfold cancel_reminder save_users_data; dsimp only; split_ifs <;> rfl

lemma cancel_reminder_sched_none (s : BotState) (u : Nat) :
    (cancel_reminder u s).scheduled_reminders u = none :=
  (cancel_reminder_clears s u).2.2

lemma cancel_reminder_task_contact (s : BotState) (u : Nat) :
    (cancel_reminder u s).reminder_tasks (TaskKey.contact u) = false :=
  (cancel_reminder_clears s u).1

lemma cancel_reminder_task_survey (s : BotState) (u : Nat) :
    (cancel_reminder u s).reminder_tasks (TaskKey.survey u) = false :=
  (cancel_reminder_clears s u).2.1

/-- C9: reminder cancellation is idempotent — a second cancellation is the
identity on the state — and cancelling when both tasks are absent and no
record is persisted (the situation after the reminder already fired or was
already cancelled) changes nothing.  `cancel_reminder` is a total function
that emits no send events, so no error and no duplicate send can arise. -/
theorem cancel_reminder_idempotent (s : BotState) (u : Nat) :
    cancel_reminder u (cancel_reminder u s) = cancel_reminder u s ∧
      (s.reminder_tasks (TaskKey.contact u) = false →
        s.reminder_tasks (TaskKey.survey u) = false →
        s.scheduled_reminders u = none →
        cancel_reminder u s = s) := by
  obtain ⟨h1, h2, h3⟩ := cancel_reminder_clears s u
  exact ⟨cancel_reminder_noop _ u h1 h2 h3, cancel_reminder_noop s u⟩

/-- Witness for C9 at a concrete state with a live reminder. -/
theorem cancel_reminder_idempotent_witness :
    cancel_reminder 1 (cancel_reminder 1 initState) = cancel_reminder 1 initState ∧
      cancel_reminder 1 initState = initState :=
  ⟨(cancel_reminder_idempotent initState 1).1,
    (cancel_reminder_idempotent initState 1).2 rfl rfl rfl⟩

/-! ## Contact submission (C4, C8) -/

/-- C4: for a user awaiting contact whose message yields a valid phone
number, contact submission appends the lead to the rolling local log,
invokes the CRM collaborator (its outcome never changes the resulting
state), removes the user's conversation state and answers, cancels both
reminder tasks and the persisted reminder record, and moves the user to
deactivated while clearing activated/expired membership, the message
count and the last-message time. -/
theorem contact_submission_success (crmOk : Bool) (now : Int) (u : Nat)
    (text : List Char) (s : BotState) (st : ConvState) (ans : Answers)
    (phone : List Char)
    (hst : s.user_states u = some st)
    (hw : st.waiting_for_contact = true)
    (hans : s.user_answers u = some ans)
    (hph : extract_phone_from_text text = some phone) :
    let lead : Lead :=
      { user_id := u, username := st.username,
        first_name := st.first_name, last_name := st.last_name,
        phone_number := phone,
        consultation_time := extract_consultation_time text, answers := ans }
    let r := process_contact_info true crmOk now u text s
    r.1.applications_log =
        (s.applications_log.filter
          (fun rec2 => now - 7 * 24 * 60 * 60 ≤ rec2.2)) ++ [(lead, now)] ∧
      r.1.applications_data =
        s.applications_data ++
          [{ user_id := u, phone_number := phone, application_date := now }] ∧
      r.2 = [BotEvent.crmCreateLead lead,
        BotEvent.respond (MsgTag.confirmation phone
          (extract_consultation_time text))] ∧
      (process_contact_info true true now u text s).1 =
        (process_contact_info true false now u text s).1 ∧
      r.1.user_states u = none ∧ r.1.user_answers u = none ∧
      r.1.reminder_tasks (TaskKey.contact u) = false ∧
      r.1.reminder_tasks (TaskKey.survey u) = false ∧
      r.1.scheduled_reminders u = none ∧
      r.1.deactivated_users u = true ∧ r.1.activated_users u = false ∧
      r.1.expired_users u = false ∧ r.1.user_message_counts u = none ∧
      r.1.last_message_times u = none := by
  unfold process_contact_info
  rw [hph, hst]
  dsimp only
  rw [cancel_reminder_sched_none]
  refine ⟨?_, ?_, ?_, rfl, ?_, ?_, ?_, ?_, ?_, ?_, ?_, ?_, ?_, ?_⟩ <;>
    simp [save_users_data, cancel_reminder_applications_log,
      cancel_reminder_applications_data, cancel_reminder_sched_none,
      cancel_reminder_task_contact, cancel_reminder_task_survey,
      cancel_reminder_user_states, cancel_reminder_user_answers,
      cancel_reminder_last_message_times, cancel_reminder_user_message_counts,
      cancel_reminder_activated_users, cancel_reminder_expired_users,
      cancel_reminder_deactivated_users, updF, updT, hans]

/-- A state with user 1 in `AWAITING_CONTACT`, one answer recorded, a live
first-tier contact reminder and its persisted record. -/
def awaitingState : BotState :=
  { initState with
      user_states := updF initState.user_states 1
        (some
          { current_question := 3, waiting_for_contact := true,
            username := none, first_name := none, last_name := none }),
      user_answers := updF initState.user_answers 1 (some [(0, "ответ".data)]),
      activated_users := updF initState.activated_users 1 true,
      user_message_counts := updF initState.user_message_counts 1 (some 1),
      reminder_tasks := updT initState.reminder_tasks (TaskKey.contact 1) true,
      scheduled_reminders := updF initState.scheduled_reminders 1
        (some
          { chat_id := 7, delay_minutes := 5, reminder_type := tierFirst,
            scheduled_time := 300, created_time := 0 }),
      last_message_times := updF initState.last_message_times 1 (some 0) }

/-- Witness for C4 at a concrete input. -/
theorem contact_submission_success_witness :
    (let lead : Lead :=
      { user_id := 1, username := none, first_name := none,
        last_name := none, phone_number := "+79001234567".data,
        consultation_time := extract_consultation_time "89001234567".data,
        answers := [(0, "ответ".data)] }
    let r := process_contact_info true true 0 1 "89001234567".data awaitingState
    r.1.applications_log =
        (awaitingState.applications_log.filter
          (fun rec2 => (0 : Int) - 7 * 24 * 60 * 60 ≤ rec2.2)) ++ [(lead, 0)] ∧
      r.1.applications_data =
        awaitingState.applications_data ++
          [{ user_id := 1, phone_number := "+79001234567".data,
              application_date := 0 }] ∧
      r.2 = [BotEvent.crmCreateLead lead,
        BotEvent.respond (MsgTag.confirmation "+79001234567".data
          (extract_consultation_time "89001234567".data))] ∧
      (process_contact_info true true 0 1 "89001234567".data awaitingState).1 =
        (process_contact_info true false 0 1 "89001234567".data awaitingState).1 ∧
      r.1.user_states 1 = none ∧ r.1.user_answers 1 = none ∧
      r.1.reminder_tasks (TaskKey.contact 1) = false ∧
      r.1.reminder_tasks (TaskKey.survey 1) = false ∧
      r.1.scheduled_reminders 1 = none ∧
      r.1.deactivated_users 1 = true ∧ r.1.activated_users 1 = false ∧
      r.1.expired_users 1 = false ∧ r.1.user_message_counts 1 = none ∧
      r.1.last_message_times 1 = none) :=
  contact_submission_success true 0 1 "89001234567".data awaitingState
    { current_question := 3, waiting_for_contact := true, username := none,
      first_name := none, last_name := none }
    [(0, "ответ".data)] "+79001234567".data rfl rfl rfl (by decide)

/-- C8: while awaiting contact, a message from which no phone number can
be extracted produces only the format-correction prompt and leaves the
entire state unchanged, so the user may retry indefinitely. -/
theorem contact_submission_invalid_phone (bc crmOk : Bool) (now : Int)
    (u : Nat) (text : List Char) (s : BotState)
    (h : extract_phone_from_text text = none) :
    process_contact_info bc crmOk now u text s =
      (s, [BotEvent.respond MsgTag.phoneFormatError]) := by
  unfold process_contact_info
  rw [h]

/-- Witness for C8: the message "привет" contains no phone number. -/
theorem contact_submission_invalid_phone_witness :
    extract_phone_from_text "привет".data = none ∧
      process_contact_info true true 0 1 "привет".data initState =
        (initState, [BotEvent.respond MsgTag.phoneFormatError]) :=
  ⟨by decide,
    contact_submission_invalid_phone true true 0 1 "привет".data initState
      (by decide)⟩

/-! ## Reminder restoration (C5) -/

/-- A conversation state awaiting contact, for concrete restoration
scenarios. -/
def waitingConv : ConvState :=
  { current_question := 3, waiting_for_contact := true,
    username := none, first_name := none, last_name := none }

/-- User map with only user 1 awaiting contact. -/
def onlyUserOneWaiting : Nat → Option ConvState :=
  fun x => if x = 1 then some waitingConv else none

/-- A persisted reminder due 30 seconds from time 0. -/
def rec30s : SchedRec :=
  { chat_id := 5, delay_minutes := 5, reminder_type := tierFirst,
    scheduled_time := 30, created_time := -270 }

/-- C5 counterexample: a persisted reminder for a user still awaiting
contact whose remaining delay is 30 seconds (strictly positive) is
discarded instead of being re-armed for the remaining delay, because the
code truncates the remainder to whole minutes. -/
theorem restore_subminute_record_discarded :
    ((onlyUserOneWaiting 1).elim false (fun st => st.waiting_for_contact)) = true ∧
      (0 : Int) < rec30s.scheduled_time - 0 ∧
      restore_scheduled_reminders 0 onlyUserOneWaiting [(1, rec30s)] = [] := by
  refine ⟨by decide, by decide, by decide⟩

/-- C5 (amended): on restoration a delayed action `(u, m, tier)` is armed
exactly for the persisted records whose user is still awaiting contact and
whose remaining delay, rounded down to whole minutes, is at least one
minute; the armed delay is that rounded-down remainder and the tier is
preserved.  All other records — users no longer awaiting contact,
past-due records, and records with less than a full minute remaining —
are discarded without firing. -/
theorem restore_scheduled_reminders_spec (now : Int)
    (states : Nat → Option ConvState) (entries : List (Nat × SchedRec))
    (u m : Nat) (tier : List Char) :
    (u, m, tier) ∈ restore_scheduled_reminders now states entries ↔
      ∃ r : SchedRec, (u, r) ∈ entries ∧
        ((states u).elim false (fun st => st.waiting_for_contact)) = true ∧
        now < r.scheduled_time ∧
        1 ≤ (r.scheduled_time - now).toNat / 60 ∧
        m = (r.scheduled_time - now).toNat / 60 ∧
        tier = r.reminder_type := by
  unfold restore_scheduled_reminders
  rw [List.mem_filterMap]
  constructor
  · rintro ⟨⟨v, r⟩, hmem, hro⟩
    unfold restoreOne at hro
    dsimp only at hro
    split_ifs at hro with hw ht hr
    simp only [Option.some.injEq, Prod.mk.injEq] at hro
    obtain ⟨rfl, rfl, rfl⟩ := hro
    refine ⟨r, hmem, ?_, by omega, by omega, rfl, rfl⟩
    simpa using hw
  · rintro ⟨r, hmem, hw, ht, hm, rfl, rfl⟩
    refine ⟨(u, r), hmem, ?_⟩
    unfold restoreOne
    dsimp only
    rw [if_neg (by simp [hw]), if_neg (by omega), if_neg (by omega)]

/-! ## Admin lock release (C6) -/

/-- C6: while the lock has a holder, release by any other user is a no-op
answered with a rejection, and release by the holder clears the lock,
wipes every per-user map and persists the emptied snapshot. -/
theorem admin_lock_release (s : BotState) (a : Nat)
    (ha : s.active_admin_user = some a) (h0 : a ≠ 0) :
    (∀ u, u ≠ a →
      deactivate_admin_mode u s = (s, [BotEvent.respond MsgTag.adminRejected])) ∧
      ((deactivate_admin_mode a s).1.admin_mode = false ∧
        (deactivate_admin_mode a s).1.active_admin_user = none ∧
        (deactivate_admin_mode a s).1.user_states = (fun _ => none) ∧
        (deactivate_admin_mode a s).1.user_answers = (fun _ => none) ∧
        (deactivate_admin_mode a s).1.reminder_tasks = (fun _ => false) ∧
        (deactivate_admin_mode a s).1.last_message_times = (fun _ => none) ∧
        (deactivate_admin_mode a s).1.survey_reminder_sent = (fun _ => none) ∧
        (deactivate_admin_mode a s).1.scheduled_reminders = (fun _ => none) ∧
        (deactivate_admin_mode a s).1.user_message_counts = (fun _ => none) ∧
        (deactivate_admin_mode a s).1.activated_users = (fun _ => false) ∧
        (deactivate_admin_mode a s).1.expired_users = (fun _ => false) ∧
        (deactivate_admin_mode a s).1.deactivated_users = (fun _ => false) ∧
        (deactivate_admin_mode a s).1.persisted = emptySnapshot ∧
        (deactivate_admin_mode a s).2 =
          [BotEvent.respond MsgTag.adminDeactivated]) := by
  constructor
  · intro u hu
    have hcond : (pyTruthyAdmin s.active_admin_user &&
        s.active_admin_user != some u) = true := by
      rw [ha]; simp [pyTruthyAdmin, bne_iff_ne, h0, Ne.symm hu]
    unfold deactivate_admin_mode
    rw [hcond]
    simp
  · have hcond : (pyTruthyAdmin s.active_admin_user &&
        s.active_admin_user != some a) = false := by
      rw [ha]; simp
    unfold deactivate_admin_mode
    rw [hcond]
    simp only [Bool.false_eq_true, if_false]
    unfold clear_user_states save_users_data
    refine ⟨?_, ?_, ?_, ?_, ?_, ?_, ?_, ?_, ?_, ?_, ?_, ?_, ?_, ?_⟩
    all_goals first | rfl | trivial

/-- A state where admin 5 holds the lock and user 2 has in-progress
answers. -/
def heldLockState : BotState :=
  { initState with
      admin_mode := true,
      active_admin_user := some 5,
      user_states := updF initState.user_states 2
        (some
          { current_question := 1, waiting_for_contact := false,
            username := none, first_name := none, last_name := none }),
      user_answers := updF initState.user_answers 2 (some [(0, "b".data)]) }

/-- Witness for C6: admin 3 is rejected; admin 5 releases and even user
2's answers are wiped, with the emptied snapshot persisted. -/
theorem admin_lock_release_witness :
    deactivate_admin_mode 3 heldLockState =
        (heldLockState, [BotEvent.respond MsgTag.adminRejected]) ∧
      (deactivate_admin_mode 5 heldLockState).1.user_answers = (fun _ => none) ∧
      (deactivate_admin_mode 5 heldLockState).1.admin_mode = false ∧
      (deactivate_admin_mode 5 heldLockState).1.persisted = emptySnapshot :=
  ⟨(admin_lock_release heldLockState 5 rfl (by decide)).1 3 (by decide),
    (admin_lock_release heldLockState 5 rfl (by decide)).2.2.2.2.1,
    (admin_lock_release heldLockState 5 rfl (by decide)).2.1,
    (admin_lock_release heldLockState 5 rfl (by decide)).2.2.2.2.2.2.2.2.2.2.2.2.2.1⟩

/-! ## Final-tier reminder teardown (C10) -/

lemma pumfa_user_states_eq (s : BotState) (u : Nat) (m : List Char) :
    (process_user_message_for_activation s u m).1.user_states = s.user_states := by
  unfold process_user_message_for_activation save_users_data
  dsimp only
  split_ifs <;> rfl

lemma pumfa_user_answers_eq (s : BotState) (u : Nat) (m : List Char) :
    (process_user_message_for_activation s u m).1.user_answers = s.user_answers := by
  unfold process_user_message_for_activation save_users_data
  dsimp only
  split_ifs <;> rfl

lemma pumfa_activated_result (s : BotState) (u : Nat) (m : List Char)
    (ha : s.activated_users u = true) (hd : s.deactivated_users u = false) :
    (process_user_message_for_activation s u m).2 = true := by
  unfold process_user_message_for_activation save_users_data
  dsimp only
  split_ifs <;> simp_all [updF]

lemma ulmt_user_states_eq (u : Nat) (now : Int) (s : BotState) :
    (update_last_message_time u now s).user_states = s.user_states := by
  unfold update_last_message_time save_users_data
  dsimp only
  split_ifs <;> rfl

lemma ulmt_user_answers_eq (u : Nat) (now : Int) (s : BotState) :
    (update_last_message_time u now s).user_answers = s.user_answers := by
  unfold update_last_message_time save_users_data
  dsimp only
  split_ifs <;> rfl

lemma start_conversation_fresh (nq u : Nat)
    (username first_name last_name : Option (List Char)) (s : BotState)
    (h1 : s.user_states u = none) (h2 : s.user_answers u = none) :
    (start_conversation nq u username first_name last_name s).1.user_states u =
      some (freshConv username first_name last_name) := by
  unfold start_conversation
  rw [h1, h2]
  simp [updF]

lemma pci_success_deactivates (now : Int) (u : Nat) (text : List Char)
    (s : BotState) (phone : List Char)
    (hph : extract_phone_from_text text = some phone) :
    (process_contact_info true true now u text s).1.deactivated_users u = true := by
  unfold process_contact_info
  rw [hph]
  dsimp only
  simp [updF]

/-- C10: when the final-tier contact reminder fires for a user still
awaiting contact (and no message arrived inside the window), it tears down
the conversation state and answers but leaves the activated set, the
message counts, the survey-reminder latch and the deactivated set
untouched; consequently a still-activated user's next message passes the
gate and starts a fresh survey at question 0 — unlike a completed
submission, which moves the user to deactivated. -/
theorem final_reminder_fire_frame (u chat d : Nat) (now now2 : Int)
    (nq : Nat) (s : BotState) (st : ConvState)
    (hst : s.user_states u = some st)
    (hw : st.waiting_for_contact = true)
    (hguard : ∀ t, s.last_message_times u = some t →
      (d : Int) * 60 ≤ now - t) :
    let r := send_reminder u chat d tierFinal now s
    r.1.activated_users = s.activated_users ∧
      r.1.user_message_counts = s.user_message_counts ∧
      r.1.survey_reminder_sent = s.survey_reminder_sent ∧
      r.1.deactivated_users = s.deactivated_users ∧
      r.1.user_states u = none ∧
      r.1.user_answers u = none ∧
      r.2 = [BotEvent.respond MsgTag.finalReminder] ∧
      (s.activated_users u = true → s.deactivated_users u = false →
        (∀ msg, (process_user_message_for_activation r.1 u msg).2 = true) ∧
          ∀ username first_name last_name msg2,
            (start_conversation nq u username first_name last_name
                (cancel_reminder u (update_last_message_time u now2
                  (process_user_message_for_activation r.1 u msg2).1))).1.user_states u =
              some (freshConv username first_name last_name)) ∧
      (∀ t2 : BotState, ∀ text phone,
        extract_phone_from_text text = some phone →
          (process_contact_info true true now2 u text t2).1.deactivated_users u = true) := by
  intro r
  have hc1 : ((s.user_states u).elim false
      (fun st2 => st2.waiting_for_contact)) = true := by
    rw [hst]; exact hw
  have hc2 : ((s.last_message_times u).elim false
      (fun t => decide (now - t < (d : Int) * 60))) = false := by
    cases hlm : s.last_message_times u with
    | none => rfl
    | some t =>
        have := hguard t hlm
        simp only [Option.elim_some, decide_eq_false_iff_not, not_lt]
        exact this
  have hr : r = send_reminder u chat d tierFinal now s := rfl
  have hmain : r.1.activated_users = s.activated_users ∧
      r.1.user_message_counts = s.user_message_counts ∧
      r.1.survey_reminder_sent = s.survey_reminder_sent ∧
      r.1.deactivated_users = s.deactivated_users ∧
      r.1.user_states u = none ∧
      r.1.user_answers u = none ∧
      r.2 = [BotEvent.respond MsgTag.finalReminder] := by
    rw [hr]
    unfold send_reminder
    rw [hc1, hc2]
    simp only [(by decide : (tierFinal == tierFirst) = false),
      (by decide : (tierFinal == tierFinal) = true)]
    split_ifs <;> simp_all [save_users_data, updF, updT]
  obtain ⟨h1, h2, h3, h4, h5, h6, h7⟩ := hmain
  refine ⟨h1, h2, h3, h4, h5, h6, h7, ?_, ?_⟩
  · intro hact hdeact
    constructor
    · intro msg
      exact pumfa_activated_result r.1 u msg (by rw [h1]; exact hact)
        (by rw [h4]; exact hdeact)
    · intro username first_name last_name msg2
      apply start_conversation_fresh
      · rw [cancel_reminder_user_states, ulmt_user_states_eq,
          pumfa_user_states_eq]
        exact h5
      · rw [cancel_reminder_user_answers, ulmt_user_answers_eq,
          pumfa_user_answers_eq]
        exact h6
  · intro t2 text phone hph
    exact pci_success_deactivates now2 u text t2 phone hph

/-- Witness for C10: the final reminder fires for user 1 of
`awaitingState` 100000 seconds after arming. -/
theorem final_reminder_fire_frame_witness :
    (let r := send_reminder 1 7 1434 tierFinal 100000 awaitingState
    r.1.activated_users = awaitingState.activated_users ∧
      r.1.user_message_counts = awaitingState.user_message_counts ∧
      r.1.survey_reminder_sent = awaitingState.survey_reminder_sent ∧
      r.1.deactivated_users = awaitingState.deactivated_users ∧
      r.1.user_states 1 = none ∧
      r.1.user_answers 1 = none ∧
      r.2 = [BotEvent.respond MsgTag.finalReminder] ∧
      (awaitingState.activated_users 1 = true →
        awaitingState.deactivated_users 1 = false →
        (∀ msg, (process_user_message_for_activation r.1 1 msg).2 = true) ∧
          ∀ username first_name last_name msg2,
            (start_conversation 4 1 username first_name last_name
                (cancel_reminder 1 (update_last_message_time 1 100500
                  (process_user_message_for_activation r.1 1 msg2).1))).1.user_states 1 =
              some (freshConv username first_name last_name)) ∧
      (∀ t2 : BotState, ∀ text phone,
        extract_phone_from_text text = some phone →
          (process_contact_info true true 100500 1 text t2).1.deactivated_users 1 =
            true)) :=
  final_reminder_fire_frame 1 7 1434 100000 100500 4 awaitingState
    { current_question := 3, waiting_for_contact := true, username := none,
      first_name := none, last_name := none }
    rfl rfl
    (by
      intro t ht
      have h0 : some (0 : Int) = some t := ht
      injection h0 with h0
      subst h0
      decide)

end SilentBot
